import Mathlib

/-!
Shallow embedding of `keystore/keystore_attestation_id.cpp` (Android
keystore attestation application id builder) and proofs about it.

Bytes are modelled as `Nat` values (each produced value is `< 256` by
construction); byte strings are `List Nat`.  The OpenSSL/BoringSSL
`i2d` templates are modelled as explicit DER emitters: definite,
minimal-length headers and `SET OF` members sorted by their encoded
bytes (lexicographic byte order, as the library's DER set sorting does).
The SHA-256 primitive is out of scope of the source file and is taken
as a function parameter `sha : List Nat → List Nat`.
-/

namespace KeystoreAttestationId

/-- DER definite-length header bytes for a content length `n`
(minimal-length encoding, as emitted by the ASN.1 library). -/
def lenBytes (n : Nat) : List Nat :=
  if n < 128 then [n]
  else if n < 256 then [129, n]
  else if n < 65536 then [130, n / 256, n % 256]
  else if n < 16777216 then [131, n / 65536, (n / 256) % 256, n % 256]
  else [132, n / 16777216, (n / 65536) % 256, (n / 256) % 256, n % 256]

/-- One DER tag-length-value element. -/
def tlv (tag : Nat) (content : List Nat) : List Nat :=
  tag :: lenBytes content.length ++ content

/-- Big-endian base-256 digits of `v` (no leading zero byte; `[]` for 0).
The first argument is fuel; `v` itself is always sufficient fuel. -/
def beBytesAux (fuel : Nat) (v : Nat) : List Nat :=
  match fuel with
  | 0 => []
  | fuel + 1 => if v = 0 then [] else beBytesAux fuel (v / 256) ++ [v % 256]

/-- Big-endian base-256 digits of `v`. -/
def beBytes (v : Nat) : List Nat := beBytesAux v v

/-- Content octets of a DER INTEGER holding the non-negative value `v`
(as produced by `BN_to_ASN1_INTEGER` + `i2d`): minimal big-endian
two's-complement, so a leading `0x00` is added when the top bit of the
leading magnitude byte is set, and the value 0 encodes as one zero byte. -/
def asn1IntContent (v : Nat) : List Nat :=
  match beBytes v with
  | [] => [0]
  | b :: bs => if 128 ≤ b then 0 :: b :: bs else b :: bs

/-- Lexicographic byte-string order used by the ASN.1 library when
sorting `SET OF` members into DER order (memcmp over the common
prefix, then shorter-first). -/
def derLt : List Nat → List Nat → Bool
  | [], [] => false
  | [], _ :: _ => true
  | _ :: _, [] => false
  | a :: as, b :: bs => if a < b then true else if b < a then false else derLt as bs

/-- Insertion step of the DER `SET OF` sort. -/
def derInsert (x : List Nat) : List (List Nat) → List (List Nat)
  | [] => [x]
  | y :: ys => if derLt x y then x :: y :: ys else y :: derInsert x ys

/-- Sort a list of encoded elements into DER `SET OF` order. -/
def derSort : List (List Nat) → List (List Nat)
  | [] => []
  | x :: xs => derInsert x (derSort xs)

/-- Mirror of `android.security.keystore.Signature`: the `data` blob
(actually a signing certificate). -/
structure Signature where
  data : List Nat
deriving DecidableEq

/-- Mirror of `android.security.keystore.KeyAttestationPackageInfo`.
`packageName` is the UTF-8 byte string obtained from the wire value
(`none` models a null `packageName`); `versionCode` is the numeric
version (cast to `uint64_t` by the encoder). -/
structure KeyAttestationPackageInfo where
  packageName : Option (List Nat)
  versionCode : Nat
  signatures : List Signature
deriving DecidableEq

/-- Mirror of `android.security.keystore.KeyAttestationApplicationId`. -/
structure KeyAttestationApplicationId where
  packageInfos : List KeyAttestationPackageInfo
deriving DecidableEq

/-- Error outcomes of the modelled functions: `BAD_VALUE` is the
binder `status_t` invalid-argument code; `GetAttestationApplicationIdFailed`
is `int32_t(ResponseCode::GET_ATTESTATION_APPLICATION_ID_FAILED)`. -/
inductive AAIDStatus where
  | BAD_VALUE
  | NO_MEMORY
  | UNKNOWN_ERROR
  | GetAttestationApplicationIdFailed
deriving DecidableEq

/-- Mirror of the `KM_ATTESTATION_PACKAGE_INFO` ASN.1 struct:
an OCTET STRING package name and an INTEGER version. -/
structure KM_ATTESTATION_PACKAGE_INFO where
  package_name : List Nat
  version : Nat
deriving DecidableEq

/-- Mirror of the `KM_ATTESTATION_APPLICATION_ID` ASN.1 struct:
a SET OF package infos and a SET OF signature-digest octet strings,
both kept here in push (input) order; `i2d` sorts them. -/
structure KM_ATTESTATION_APPLICATION_ID where
  package_infos : List KM_ATTESTATION_PACKAGE_INFO
  signature_digests : List (List Nat)
deriving DecidableEq

/-- The bytes of `kAttestationSystemPackageName = "AndroidSystem"`. -/
def kAttestationSystemPackageName : List Nat :=
  [65, 110, 100, 114, 111, 105, 100, 83, 121, 115, 116, 101, 109]

/-- Mirror of `kMaxAttempts`. -/
def kMaxAttempts : Nat := 3

/-- Modelled from the spec: `KEY_ATTESTATION_APPLICATION_ID_MAX_SIZE` is
declared in `keystore/keystore_attestation_id.h`, which is not under
`src/`; the spec fixes `MAX_SIZE = 1024` bytes. -/
def KEY_ATTESTATION_APPLICATION_ID_MAX_SIZE : Nat := 1024

/-- Mirror of `AAID_PKG_INFO_OVERHEAD`. -/
def AAID_PKG_INFO_OVERHEAD : Nat := 15

/-- Mirror of `AAID_SIGNATURE_SIZE`. -/
def AAID_SIGNATURE_SIZE : Nat := 34

/-- Mirror of `AAID_GENERAL_OVERHEAD`. -/
def AAID_GENERAL_OVERHEAD : Nat := 16

/-- Modelled from the spec: `AID_SYSTEM` comes from
`private/android_filesystem_config.h` (not under `src/`); the spec
fixes `SYSTEM = 1000`. -/
def AID_SYSTEM : Nat := 1000

/-- Modelled from the spec: `AID_ROOT` comes from
`private/android_filesystem_config.h` (not under `src/`); the spec
fixes `ROOT = 0`. -/
def AID_ROOT : Nat := 0

/-- Mirror of `signature2SHA256`, with the SHA-256 primitive supplied
as the parameter `sha`. -/
def signature2SHA256 (sha : List Nat → List Nat) (sig : Signature) : List Nat :=
  sha sig.data

/-- Mirror of `i2d_KM_ATTESTATION_PACKAGE_INFO`: SEQUENCE of the
OCTET STRING name (tag 0x04) and INTEGER version (tag 0x02),
SEQUENCE tag 0x30. -/
def i2d_KM_ATTESTATION_PACKAGE_INFO (p : KM_ATTESTATION_PACKAGE_INFO) : List Nat :=
  tlv 48 (tlv 4 p.package_name ++ tlv 2 (asn1IntContent p.version))

/-- Mirror of `i2d_KM_ATTESTATION_APPLICATION_ID`: SEQUENCE (tag 0x30)
of two SET OF (tag 0x31), whose members the library sorts into DER
order before emitting. -/
def i2d_KM_ATTESTATION_APPLICATION_ID (a : KM_ATTESTATION_APPLICATION_ID) : List Nat :=
  tlv 48
    (tlv 49 (derSort (a.package_infos.map i2d_KM_ATTESTATION_PACKAGE_INFO)).flatten ++
     tlv 49 (derSort (a.signature_digests.map (fun d => tlv 4 d))).flatten)

/-- Mirror of `build_attestation_package_info`: fails with `BAD_VALUE`
on a missing package name, otherwise builds the ASN.1 package info with
the version cast through `uint64_t` (`BN_set_u64`). -/
def build_attestation_package_info (p : KeyAttestationPackageInfo) :
    Except AAIDStatus KM_ATTESTATION_PACKAGE_INFO :=
  match p.packageName with
  | none => Except.error AAIDStatus.BAD_VALUE
  | some name => Except.ok { package_name := name, version := p.versionCode % 2 ^ 64 }

/-- The package loop of `build_attestation_application_id` (lines
212-234): iterate in input order, check the name, build the package
info, add `AAID_PKG_INFO_OVERHEAD + name.length` to the running
estimate, and stop (keeping the incremented estimate) as soon as the
estimate exceeds the cap.  Returns the pushed package infos together
with the final value of `estimated_encoded_size`. -/
def pkgLoop : List KeyAttestationPackageInfo → Nat →
    Except AAIDStatus (List KM_ATTESTATION_PACKAGE_INFO × Nat)
  | [], est => Except.ok ([], est)
  | p :: rest, est =>
    match p.packageName with
    | none => Except.error AAIDStatus.BAD_VALUE
    | some name =>
      match build_attestation_package_info p with
      | Except.error e => Except.error e
      | Except.ok info =>
        let est2 := est + AAID_PKG_INFO_OVERHEAD + name.length
        if KEY_ATTESTATION_APPLICATION_ID_MAX_SIZE < est2 then Except.ok ([], est2)
        else
          match pkgLoop rest est2 with
          | Except.error e => Except.error e
          | Except.ok (infos, estOut) => Except.ok (info :: infos, estOut)

/-- The signature-digest loop of `build_attestation_application_id`
(lines 248-262): add `AAID_SIGNATURE_SIZE` per digest and stop as soon
as the estimate exceeds the cap. -/
def sigLoop : List (List Nat) → Nat → List (List Nat) × Nat
  | [], est => ([], est)
  | d :: rest, est =>
    let est2 := est + AAID_SIGNATURE_SIZE
    if KEY_ATTESTATION_APPLICATION_ID_MAX_SIZE < est2 then ([], est2)
    else
      let r := sigLoop rest est2
      (d :: r.1, r.2)

/-- The structure-building part of `build_attestation_application_id`
(lines 201-262): reject an empty package list with `BAD_VALUE`, run the
package loop from `AAID_GENERAL_OVERHEAD`, hash the signatures of the
first package only, and run the digest loop from the estimate the
package loop left behind. -/
def buildStructure (sha : List Nat → List Nat) (ka : KeyAttestationApplicationId) :
    Except AAIDStatus KM_ATTESTATION_APPLICATION_ID :=
  match ka.packageInfos with
  | [] => Except.error AAIDStatus.BAD_VALUE
  | first :: _ =>
    match pkgLoop ka.packageInfos AAID_GENERAL_OVERHEAD with
    | Except.error e => Except.error e
    | Except.ok (infos, est) =>
      let digests := first.signatures.map (signature2SHA256 sha)
      let r := sigLoop digests est
      Except.ok { package_infos := infos, signature_digests := r.1 }

/-- Mirror of `build_attestation_application_id` (lines 201-273): build
the ASN.1 structure, then `i2d`-encode it. -/
def build_attestation_application_id (sha : List Nat → List Nat)
    (ka : KeyAttestationApplicationId) : Except AAIDStatus (List Nat) :=
  (buildStructure sha ka).map i2d_KM_ATTESTATION_APPLICATION_ID

/-- Outcome of one `getKeyAttestationApplicationId` RPC, as classified
by `gather_attestation_application_id`'s retry loop. -/
inductive RpcResult where
  | Ok (ka : KeyAttestationApplicationId)
  | ServiceSpecific
  | TransactionFailed
  | OtherError

/-- Mirror of `status.isOk()`. -/
def RpcResult.isOk : RpcResult → Bool
  | RpcResult.Ok _ => true
  | _ => false

/-- Mirror of `status.exceptionCode() == EX_TRANSACTION_FAILED`. -/
def RpcResult.isTransactionFailed : RpcResult → Bool
  | RpcResult.TransactionFailed => true
  | _ => false

/-- Observable side effects of one `gather_attestation_application_id`
call: an RPC to the provider, a `reset_service()` call, a `usleep`. -/
inductive GatherEvent where
  | rpcCall
  | resetCall
  | sleepCall
deriving DecidableEq, BEq

/-- The retry loop of `gather_attestation_application_id` (lines
289-311), with the provider's answer on attempt `i` given by
`provider i`.  Returns the trace of observable events together with the
final value of the `status` variable.  On a failed attempt the loop
records the RPC, a reset if and only if the failure was
`EX_TRANSACTION_FAILED`, and the `usleep` that follows every failed
attempt (including the last one).  The fuel-0 base case is never
reached from `kMaxAttempts ≥ 1`. -/
def runAttempts (provider : Nat → RpcResult) : Nat → Nat → List GatherEvent × RpcResult
  | _, 0 => ([], RpcResult.OtherError)
  | attempt, fuel + 1 =>
    let st := provider attempt
    if st.isOk then ([GatherEvent.rpcCall], st)
    else
      let evs := GatherEvent.rpcCall ::
        ((if st.isTransactionFailed then [GatherEvent.resetCall] else []) ++
          [GatherEvent.sleepCall])
      if fuel = 0 then (evs, st)
      else
        let r := runAttempts provider (attempt + 1) fuel
        (evs ++ r.1, r.2)

/-- Mirror of `gather_attestation_application_id` (lines 275-323):
privileged uids get a fixed single-package id with no RPC; other uids
run the retry loop and either encode the provider's answer or fail with
`GET_ATTESTATION_APPLICATION_ID_FAILED`.  The first component is the
trace of observable events. -/
def gather_attestation_application_id (sha : List Nat → List Nat)
    (provider : Nat → RpcResult) (uid : Nat) :
    List GatherEvent × Except AAIDStatus (List Nat) :=
  if uid = AID_SYSTEM ∨ uid = AID_ROOT then
    ([], build_attestation_application_id sha
      { packageInfos := [{ packageName := some kAttestationSystemPackageName,
                           versionCode := 1, signatures := [] }] })
  else
    let r := runAttempts provider 0 kMaxAttempts
    match r.2 with
    | RpcResult.Ok ka => (r.1, build_attestation_application_id sha ka)
    | _ => (r.1, Except.error AAIDStatus.GetAttestationApplicationIdFailed)

/-- Boolean success test for the modelled `StatusOr`. -/
def exceptIsOk : Except AAIDStatus (List Nat) → Bool
  | Except.ok _ => true
  | Except.error _ => false

/-- The ASN.1 package info that `build_attestation_package_info`
produces for a package whose name is present. -/
def toKMInfo (p : KeyAttestationPackageInfo) : KM_ATTESTATION_PACKAGE_INFO :=
  { package_name := p.packageName.getD [], version := p.versionCode % 2 ^ 64 }

/-- Estimated-size cost the package loop charges for one package. -/
def pkgCost (p : KeyAttestationPackageInfo) : Nat :=
  AAID_PKG_INFO_OVERHEAD + (p.packageName.getD []).length

/-- Running estimate after the first `k` packages, starting from `est`. -/
def estFrom (est : Nat) (pkgs : List KeyAttestationPackageInfo) (k : Nat) : Nat :=
  est + ((pkgs.take k).map pkgCost).sum

/-- The spec's cumulative size estimate of the first `k` packages:
`GENERAL_OVERHEAD` plus `PKG_OVERHEAD + len(name)` per package. -/
def prefixEstimate (pkgs : List KeyAttestationPackageInfo) (k : Nat) : Nat :=
  estFrom AAID_GENERAL_OVERHEAD pkgs k

/-- A concrete stand-in for the SHA-256 parameter, used in closed
instances: it returns a 32-byte digest like the real primitive. -/
def shaZero : List Nat → List Nat := fun _ => List.replicate 32 0

/-- The fixed single-package id synthesized for privileged callers. -/
def systemKeyAttestationId : KeyAttestationApplicationId :=
  { packageInfos := [{ packageName := some kAttestationSystemPackageName,
                       versionCode := 1, signatures := [] }] }


/-- First package of the C1 failing input: a 256-byte name and a
version whose DER INTEGER needs the full 9 content bytes. -/
def c1OverflowPkg1 : KeyAttestationPackageInfo :=
  { packageName := some (List.replicate 256 97), versionCode := 2 ^ 63, signatures := [] }

/-- Second package of the C1 failing input: a 721-byte name. -/
def c1OverflowPkg2 : KeyAttestationPackageInfo :=
  { packageName := some (List.replicate 721 97), versionCode := 2 ^ 63, signatures := [] }

/-- The C1 failing input: both packages pass the admission check
(estimate 16 + 271 + 736 = 1023 ≤ 1024) but the emitted DER is 1025
bytes long. -/
def c1OverflowInput : KeyAttestationApplicationId :=
  { packageInfos := [c1OverflowPkg1, c1OverflowPkg2] }

/-- The spec's truncation example: 100 packages with 200-byte names. -/
def c2TruncationExample : KeyAttestationApplicationId :=
  { packageInfos := List.replicate 100
      { packageName := some (List.replicate 200 97), versionCode := 7, signatures := [] } }

/-- A small concrete package used by witnesses. -/
def witnessPkg : KeyAttestationPackageInfo :=
  { packageName := some [97, 98, 99], versionCode := 5,
    signatures := [{ data := [1, 2, 3] }] }

/-- Provider that fails with a transport error once, then succeeds. -/
def c6ProviderRetry : Nat → RpcResult :=
  fun i => if i = 0 then RpcResult.TransactionFailed else RpcResult.Ok systemKeyAttestationId

/-- Provider that always fails with a service-specific error. -/
def c6ProviderFail : Nat → RpcResult := fun _ => RpcResult.ServiceSpecific

/-- Provider that always fails with a service-specific error, used by
the C7 analysis. -/
def c7Provider : Nat → RpcResult := fun _ => RpcResult.ServiceSpecific

/-- Provider that immediately answers with an empty package list. -/
def c10Provider : Nat → RpcResult := fun _ => RpcResult.Ok { packageInfos := [] }

/-- First package of the C9 witness input: a 900-byte name and one
signature. -/
def c9Pkg1 : KeyAttestationPackageInfo :=
  { packageName := some (List.replicate 900 98), versionCode := 3,
    signatures := [{ data := [7] }] }

/-- Second package of the C9 witness input: rejected by the size check
(estimate 931 + 215 = 1146 > 1024). -/
def c9Pkg2 : KeyAttestationPackageInfo :=
  { packageName := some (List.replicate 200 99), versionCode := 4, signatures := [] }

/-- The C9 witness input: the package loop truncates after the first
package. -/
def c9TruncatingInput : KeyAttestationApplicationId :=
  { packageInfos := [c9Pkg1, c9Pkg2] }

theorem estFrom_zero (est : Nat) (pkgs : List KeyAttestationPackageInfo) :
    estFrom est pkgs 0 = est := by
  simp [estFrom]

theorem estFrom_cons (est : Nat) (p : KeyAttestationPackageInfo)
    (rest : List KeyAttestationPackageInfo) (k : Nat) :
    estFrom est (p :: rest) (k + 1) = estFrom (est + pkgCost p) rest k := by
  simp [estFrom, List.take_succ_cons]
  omega

theorem sum_take_mono (l : List Nat) :
    ∀ {j1 j2 : Nat}, j1 ≤ j2 → (l.take j1).sum ≤ (l.take j2).sum := by
  induction l with
  | nil => intro j1 j2 _; simp
  | cons x xs ih =>
    intro j1 j2 h
    cases j1 with
    | zero => simp
    | succ j1 =>
      cases j2 with
      | zero => omega
      | succ j2 =>
        simp only [List.take_succ_cons, List.sum_cons]
        exact Nat.add_le_add_left (ih (Nat.succ_le_succ_iff.mp h)) x

theorem estFrom_mono (est : Nat) (pkgs : List KeyAttestationPackageInfo)
    {j1 j2 : Nat} (h : j1 ≤ j2) :
    estFrom est pkgs j1 ≤ estFrom est pkgs j2 := by
  have := sum_take_mono (pkgs.map pkgCost) h
  simp only [estFrom, List.map_take]
  omega

/-- Exact characterization of the package loop when every package has a
name: the pushed packages are a prefix, each admitted step kept the
estimate within the cap, and either everything was admitted or the
first rejected step pushed the estimate over the cap (which the loop
keeps as its final estimate). -/
theorem pkgLoop_spec (pkgs : List KeyAttestationPackageInfo) (est : Nat)
    (h : ∀ p ∈ pkgs, p.packageName.isSome) :
    ∃ k, k ≤ pkgs.length ∧
      pkgLoop pkgs est = Except.ok ((pkgs.take k).map toKMInfo,
        if k = pkgs.length then estFrom est pkgs k else estFrom est pkgs (k + 1)) ∧
      (∀ j, 1 ≤ j → j ≤ k → estFrom est pkgs j ≤ KEY_ATTESTATION_APPLICATION_ID_MAX_SIZE) ∧
      (k = pkgs.length ∨ KEY_ATTESTATION_APPLICATION_ID_MAX_SIZE < estFrom est pkgs (k + 1)) := by
  induction pkgs generalizing est with
  | nil =>
    refine ⟨0, by simp, ?_, by omega, Or.inl rfl⟩
    simp [pkgLoop, estFrom]
  | cons p rest ih =>
    obtain ⟨name, hname⟩ := Option.isSome_iff_exists.mp (h p (by simp))
    have hcost : pkgCost p = AAID_PKG_INFO_OVERHEAD + name.length := by
      simp [pkgCost, hname]
    by_cases hover :
        KEY_ATTESTATION_APPLICATION_ID_MAX_SIZE < est + AAID_PKG_INFO_OVERHEAD + name.length
    · refine ⟨0, by omega, ?_, by omega, Or.inr ?_⟩
      · have hlen : (0 : Nat) ≠ (p :: rest).length := by simp
        rw [if_neg hlen]
        rw [estFrom_cons, estFrom_zero, hcost]
        simp [pkgLoop, hname, build_attestation_package_info, hover]
        omega
      · rw [estFrom_cons, estFrom_zero, hcost]
        omega
    · have htail : ∀ q ∈ rest, q.packageName.isSome := fun q hq => h q (by simp [hq])
      obtain ⟨k, hklen, heq, hcond, hlast⟩ :=
        ih (est + AAID_PKG_INFO_OVERHEAD + name.length) htail
      have hbase : est + pkgCost p = est + AAID_PKG_INFO_OVERHEAD + name.length := by
        rw [hcost]; omega
      refine ⟨k + 1, by simpa using Nat.succ_le_succ hklen, ?_, ?_, ?_⟩
      · have hred : pkgLoop (p :: rest) est = Except.ok
            (toKMInfo p :: (rest.take k).map toKMInfo,
              if k = rest.length then estFrom (est + AAID_PKG_INFO_OVERHEAD + name.length) rest k
              else estFrom (est + AAID_PKG_INFO_OVERHEAD + name.length) rest (k + 1)) := by
          simp [pkgLoop, hname, build_attestation_package_info, hover, toKMInfo, heq]
        rw [hred]
        have hlist : toKMInfo p :: (rest.take k).map toKMInfo =
            ((p :: rest).take (k + 1)).map toKMInfo := by
          simp [List.take_succ_cons]
        by_cases hkl : k = rest.length
        · rw [hlist, if_pos hkl, if_pos (by simp [hkl] : k + 1 = (p :: rest).length),
            estFrom_cons, hbase, hkl]
        · rw [hlist, if_neg hkl, if_neg (by simp [hkl] : ¬ (k + 1 = (p :: rest).length)),
            estFrom_cons, hbase]
      · intro j h1 h2
        cases j with
        | zero => omega
        | succ j' =>
          cases j' with
          | zero =>
            rw [estFrom_cons, estFrom_zero, hcost]
            omega
          | succ j'' =>
            rw [estFrom_cons, hbase]
            exact hcond (j'' + 1) (by omega) (by omega)
      · rcases hlast with hl | hr
        · exact Or.inl (by simp [hl])
        · refine Or.inr ?_
          rw [estFrom_cons, hbase]
          exact hr

/-- If the package loop returned fewer packages than it was given, the
estimate it hands to the digest loop already exceeds the cap. -/
theorem pkgLoop_truncated_over (pkgs : List KeyAttestationPackageInfo) (est : Nat)
    (infos : List KM_ATTESTATION_PACKAGE_INFO) (estOut : Nat)
    (h : pkgLoop pkgs est = Except.ok (infos, estOut))
    (hlt : infos.length < pkgs.length) :
    KEY_ATTESTATION_APPLICATION_ID_MAX_SIZE < estOut := by
  induction pkgs generalizing est infos with
  | nil => simp [pkgLoop] at h; simp [← h.1] at hlt
  | cons p rest ih =>
    cases hname : p.packageName with
    | none => simp [pkgLoop, hname] at h
    | some name =>
      simp only [pkgLoop, hname, build_attestation_package_info] at h
      by_cases hover :
          KEY_ATTESTATION_APPLICATION_ID_MAX_SIZE <
            est + AAID_PKG_INFO_OVERHEAD + name.length
      · rw [if_pos hover] at h
        have := (Except.ok.injEq _ _).mp h
        have h2 : estOut = est + AAID_PKG_INFO_OVERHEAD + name.length := by
          have := congrArg Prod.snd this
          simpa using this.symm
        omega
      · rw [if_neg hover] at h
        cases hrec : pkgLoop rest (est + AAID_PKG_INFO_OVERHEAD + name.length) with
        | error e => rw [hrec] at h; simp at h
        | ok r =>
          obtain ⟨infos', estOut'⟩ := r
          rw [hrec] at h
          simp only [Except.ok.injEq, Prod.mk.injEq] at h
          obtain ⟨hinfos, hout⟩ := h
          subst hout
          have hlen : infos.length = infos'.length + 1 := by
            rw [← hinfos]; simp
          have : infos'.length < rest.length := by
            simp only [List.length_cons] at hlt
            omega
          exact ih _ _ hrec this

/-- Once the estimate is over the cap, the digest loop admits nothing. -/
theorem sigLoop_over (ds : List (List Nat)) (est : Nat)
    (h : KEY_ATTESTATION_APPLICATION_ID_MAX_SIZE < est) :
    (sigLoop ds est).1 = [] := by
  cases ds with
  | nil => rfl
  | cons d rest =>
    simp only [sigLoop]
    rw [if_pos (by omega)]

/-- Exact characterization of the digest loop: it keeps a prefix of the
digests, each admitted step kept the estimate within the cap, and
either all digests were admitted or the next one would overflow. -/
theorem sigLoop_spec (ds : List (List Nat)) (est : Nat) :
    ∃ j, j ≤ ds.length ∧
      (sigLoop ds est).1 = ds.take j ∧
      (∀ i, 1 ≤ i → i ≤ j →
        est + AAID_SIGNATURE_SIZE * i ≤ KEY_ATTESTATION_APPLICATION_ID_MAX_SIZE) ∧
      (j = ds.length ∨
        KEY_ATTESTATION_APPLICATION_ID_MAX_SIZE < est + AAID_SIGNATURE_SIZE * (j + 1)) := by
  induction ds generalizing est with
  | nil => exact ⟨0, by simp, by simp [sigLoop], by omega, Or.inl rfl⟩
  | cons d rest ih =>
    by_cases hover :
        KEY_ATTESTATION_APPLICATION_ID_MAX_SIZE < est + AAID_SIGNATURE_SIZE
    · refine ⟨0, by simp, ?_, by omega, Or.inr ?_⟩
      · simp only [sigLoop]
        rw [if_pos hover]
        rfl
      · simp only [AAID_SIGNATURE_SIZE] at hover ⊢
        omega
    · obtain ⟨j, hjlen, heq, hcond, hlast⟩ := ih (est + AAID_SIGNATURE_SIZE)
      refine ⟨j + 1, by simpa using Nat.succ_le_succ hjlen, ?_, ?_, ?_⟩
      · simp only [sigLoop]
        rw [if_neg hover]
        simp [heq, List.take_succ_cons]
      · intro i h1 h2
        cases i with
        | zero => omega
        | succ i' =>
          cases i' with
          | zero => simp [AAID_SIGNATURE_SIZE] at *; omega
          | succ i'' =>
            have := hcond (i'' + 1) (by omega) (by omega)
            simp [AAID_SIGNATURE_SIZE] at *
            omega
      · rcases hlast with hl | hr
        · exact Or.inl (by simp [hl])
        · refine Or.inr ?_
          simp [AAID_SIGNATURE_SIZE] at *
          omega

theorem runAttempts_ok (provider : Nat → RpcResult) (attempt fuel : Nat)
    (h : (provider attempt).isOk = true) :
    runAttempts provider attempt (fuel + 1) = ([GatherEvent.rpcCall], provider attempt) := by
  simp [runAttempts, h]

theorem runAttempts_fail_last (provider : Nat → RpcResult) (attempt : Nat)
    (h : (provider attempt).isOk = false) :
    runAttempts provider attempt 1 =
      (GatherEvent.rpcCall ::
        ((if (provider attempt).isTransactionFailed then [GatherEvent.resetCall] else []) ++
          [GatherEvent.sleepCall]),
       provider attempt) := by
  simp [runAttempts, h]

theorem runAttempts_fail_step (provider : Nat → RpcResult) (attempt fuel : Nat)
    (h : (provider attempt).isOk = false) (hf : fuel ≠ 0) :
    runAttempts provider attempt (fuel + 1) =
      ((GatherEvent.rpcCall ::
          ((if (provider attempt).isTransactionFailed then [GatherEvent.resetCall] else []) ++
            [GatherEvent.sleepCall])) ++ (runAttempts provider (attempt + 1) fuel).1,
       (runAttempts provider (attempt + 1) fuel).2) := by
  simp [runAttempts, h, hf]

theorem gather_not_privileged (sha : List Nat → List Nat) (provider : Nat → RpcResult)
    (uid : Nat) (h1 : uid ≠ AID_SYSTEM) (h2 : uid ≠ AID_ROOT) :
    gather_attestation_application_id sha provider uid =
      (match (runAttempts provider 0 kMaxAttempts).2 with
       | RpcResult.Ok ka =>
         ((runAttempts provider 0 kMaxAttempts).1, build_attestation_application_id sha ka)
       | _ => ((runAttempts provider 0 kMaxAttempts).1,
               Except.error AAIDStatus.GetAttestationApplicationIdFailed)) := by
  have : ¬ (uid = AID_SYSTEM ∨ uid = AID_ROOT) := by tauto
  simp only [gather_attestation_application_id, if_neg this]

set_option maxRecDepth 100000 in
/-- C1 evidence: both packages of `c1OverflowInput` pass the admission
check (final estimate 1023 ≤ 1024), yet the DER encoding the function
returns is 1025 bytes long, exceeding the 1024-byte cap the estimate is
meant to enforce. -/
theorem C1_output_exceeds_cap :
    pkgLoop c1OverflowInput.packageInfos AAID_GENERAL_OVERHEAD =
      Except.ok ([toKMInfo c1OverflowPkg1, toKMInfo c1OverflowPkg2], 1023) ∧
    (build_attestation_application_id shaZero c1OverflowInput).map List.length =
      Except.ok 1025 :=
  ⟨rfl, rfl⟩

set_option maxRecDepth 100000 in
/-- C2: for valid inputs the encoded packages are exactly the longest
prefix of the input whose cumulative estimate stays within the cap;
on the spec's example of 100 packages with 200-byte names exactly 4
packages are encoded and the call succeeds. -/
theorem C2_longest_prefix_within_cap :
    (∀ (sha : List Nat → List Nat) (pkgs : List KeyAttestationPackageInfo),
      pkgs ≠ [] → (∀ p ∈ pkgs, p.packageName.isSome) →
      ∃ k st, buildStructure sha { packageInfos := pkgs } = Except.ok st ∧
        build_attestation_application_id sha { packageInfos := pkgs } =
          Except.ok (i2d_KM_ATTESTATION_APPLICATION_ID st) ∧
        st.package_infos = (pkgs.take k).map toKMInfo ∧
        k ≤ pkgs.length ∧
        prefixEstimate pkgs k ≤ KEY_ATTESTATION_APPLICATION_ID_MAX_SIZE ∧
        (∀ j, j ≤ pkgs.length →
          prefixEstimate pkgs j ≤ KEY_ATTESTATION_APPLICATION_ID_MAX_SIZE → j ≤ k)) ∧
    (buildStructure shaZero c2TruncationExample).map
      (fun st => st.package_infos.length) = Except.ok 4 ∧
    exceptIsOk (build_attestation_application_id shaZero c2TruncationExample) = true := by
  refine ⟨?_, rfl, rfl⟩
  intro sha pkgs hne hnames
  obtain ⟨k, hklen, heq, hcond, hlast⟩ := pkgLoop_spec pkgs AAID_GENERAL_OVERHEAD hnames
  cases pkgs with
  | nil => exact absurd rfl hne
  | cons first rest =>
    have hbs : buildStructure sha { packageInfos := first :: rest } = Except.ok
        { package_infos := ((first :: rest).take k).map toKMInfo,
          signature_digests :=
            (sigLoop ((first.signatures).map (signature2SHA256 sha))
              (if k = (first :: rest).length
               then estFrom AAID_GENERAL_OVERHEAD (first :: rest) k
               else estFrom AAID_GENERAL_OVERHEAD (first :: rest) (k + 1))).1 } := by
      simp [buildStructure, heq]
    refine ⟨k, _, hbs, ?_, rfl, hklen, ?_, ?_⟩
    · simp only [build_attestation_application_id, hbs]
      rfl
    · cases k with
      | zero =>
        simp only [prefixEstimate, estFrom_zero]
        decide
      | succ k' =>
        simp only [prefixEstimate]
        exact hcond (k' + 1) (by omega) le_rfl
    · intro j hjlen hjfit
      by_contra hjk
      rcases hlast with hl | hr
      · omega
      · have hmono := estFrom_mono AAID_GENERAL_OVERHEAD (first :: rest)
          (show k + 1 ≤ j by omega)
        simp only [prefixEstimate] at hjfit
        omega

/-- Witness for C2 at a concrete one-package input. -/
theorem C2_longest_prefix_within_cap_witness :
    ∃ k st, buildStructure shaZero { packageInfos := [witnessPkg] } = Except.ok st ∧
      build_attestation_application_id shaZero { packageInfos := [witnessPkg] } =
        Except.ok (i2d_KM_ATTESTATION_APPLICATION_ID st) ∧
      st.package_infos = (([witnessPkg] : List KeyAttestationPackageInfo).take k).map toKMInfo ∧
      k ≤ ([witnessPkg] : List KeyAttestationPackageInfo).length ∧
      prefixEstimate [witnessPkg] k ≤ KEY_ATTESTATION_APPLICATION_ID_MAX_SIZE ∧
      (∀ j, j ≤ ([witnessPkg] : List KeyAttestationPackageInfo).length →
        prefixEstimate [witnessPkg] j ≤ KEY_ATTESTATION_APPLICATION_ID_MAX_SIZE → j ≤ k) :=
  C2_longest_prefix_within_cap.1 shaZero [witnessPkg] (by decide) (by decide)

/-- C3: whatever the package loop left as estimate, the encoded digest
set is exactly the SHA-256 images of the longest prefix of the first
package's signatures that fits the remaining budget at
`AAID_SIGNATURE_SIZE` per digest, in input order; signatures of other
packages never contribute. -/
theorem C3_digests_prefix_of_first_package (sha : List Nat → List Nat)
    (first : KeyAttestationPackageInfo) (rest : List KeyAttestationPackageInfo)
    (infos : List KM_ATTESTATION_PACKAGE_INFO) (est : Nat)
    (h : pkgLoop (first :: rest) AAID_GENERAL_OVERHEAD = Except.ok (infos, est)) :
    ∃ j, buildStructure sha { packageInfos := first :: rest } = Except.ok
        { package_infos := infos,
          signature_digests := ((first.signatures).map (signature2SHA256 sha)).take j } ∧
      j ≤ first.signatures.length ∧
      (∀ i, 1 ≤ i → i ≤ j →
        est + AAID_SIGNATURE_SIZE * i ≤ KEY_ATTESTATION_APPLICATION_ID_MAX_SIZE) ∧
      (∀ i, i ≤ first.signatures.length →
        est + AAID_SIGNATURE_SIZE * i ≤ KEY_ATTESTATION_APPLICATION_ID_MAX_SIZE → i ≤ j) := by
  obtain ⟨j, hjlen, heq1, hcond, hlast⟩ :=
    sigLoop_spec ((first.signatures).map (signature2SHA256 sha)) est
  have hlenmap : ((first.signatures).map (signature2SHA256 sha)).length =
      first.signatures.length := List.length_map _ _
  refine ⟨j, ?_, by omega, hcond, ?_⟩
  · simp [buildStructure, h, heq1]
  · intro i hile hifit
    by_contra hij
    rcases hlast with hl | hr
    · omega
    · have hmul : AAID_SIGNATURE_SIZE * (j + 1) ≤ AAID_SIGNATURE_SIZE * i :=
        Nat.mul_le_mul_left _ (by omega)
      omega

/-- Witness for C3 at a concrete one-package input with one signature. -/
theorem C3_digests_prefix_of_first_package_witness :
    ∃ j, buildStructure shaZero { packageInfos := [witnessPkg] } = Except.ok
        { package_infos := [toKMInfo witnessPkg],
          signature_digests :=
            ((witnessPkg.signatures).map (signature2SHA256 shaZero)).take j } ∧
      j ≤ witnessPkg.signatures.length ∧
      (∀ i, 1 ≤ i → i ≤ j →
        34 + AAID_SIGNATURE_SIZE * i ≤ KEY_ATTESTATION_APPLICATION_ID_MAX_SIZE) ∧
      (∀ i, i ≤ witnessPkg.signatures.length →
        34 + AAID_SIGNATURE_SIZE * i ≤ KEY_ATTESTATION_APPLICATION_ID_MAX_SIZE → i ≤ j) :=
  C3_digests_prefix_of_first_package shaZero witnessPkg [] [toKMInfo witnessPkg] 34 rfl

/-- C4: the encoder rejects an empty package list with `BAD_VALUE` and
never returns an empty byte sequence on success. -/
theorem C4_empty_rejected_output_nonempty :
    (∀ sha : List Nat → List Nat,
      build_attestation_application_id sha { packageInfos := [] } =
        Except.error AAIDStatus.BAD_VALUE) ∧
    (∀ (sha : List Nat → List Nat) (ka : KeyAttestationApplicationId) (bytes : List Nat),
      build_attestation_application_id sha ka = Except.ok bytes → bytes ≠ []) := by
  refine ⟨fun _ => rfl, ?_⟩
  intro sha ka bytes h
  cases hb : buildStructure sha ka with
  | error e => simp [build_attestation_application_id, hb, Except.map] at h
  | ok st =>
    simp only [build_attestation_application_id, hb, Except.map] at h
    rw [← (Except.ok.injEq _ _).mp h]
    simp [i2d_KM_ATTESTATION_APPLICATION_ID, tlv]

/-- Witness for C4: the empty input errors, and a successful concrete
encoding is a nonempty byte string. -/
theorem C4_empty_rejected_output_nonempty_witness :
    build_attestation_application_id shaZero { packageInfos := [] } =
      Except.error AAIDStatus.BAD_VALUE ∧
    i2d_KM_ATTESTATION_APPLICATION_ID
      { package_infos := [toKMInfo { packageName := some kAttestationSystemPackageName,
                                     versionCode := 1, signatures := [] }],
        signature_digests := [] } ≠ [] :=
  ⟨C4_empty_rejected_output_nonempty.1 shaZero,
   C4_empty_rejected_output_nonempty.2 shaZero systemKeyAttestationId _ rfl⟩

/-- C5: gathering for the privileged uids SYSTEM (1000) and ROOT (0)
produces no observable RPC, reset or sleep event and returns exactly
the encoding of the fixed single-package AndroidSystem id. -/
theorem C5_privileged_short_circuit (sha : List Nat → List Nat) (provider : Nat → RpcResult) :
    gather_attestation_application_id sha provider 1000 =
      ([], build_attestation_application_id sha systemKeyAttestationId) ∧
    gather_attestation_application_id sha provider 0 =
      ([], build_attestation_application_id sha systemKeyAttestationId) :=
  ⟨rfl, rfl⟩

/-- C6: a TransactionFailed answer followed by Ok makes the gatherer
succeed with exactly one reset between the two RPC calls; three non-Ok
answers make it perform exactly three RPC attempts, fail with
`GET_ATTESTATION_APPLICATION_ID_FAILED`, and reset once per
TransactionFailed answer (zero times for ServiceSpecific failures). -/
theorem C6_retry_and_reset_policy :
    (∀ (sha : List Nat → List Nat) (provider : Nat → RpcResult) (uid : Nat)
        (ka : KeyAttestationApplicationId) (bytes : List Nat),
      uid ≠ AID_SYSTEM → uid ≠ AID_ROOT →
      provider 0 = RpcResult.TransactionFailed →
      provider 1 = RpcResult.Ok ka →
      build_attestation_application_id sha ka = Except.ok bytes →
      gather_attestation_application_id sha provider uid =
        ([GatherEvent.rpcCall, GatherEvent.resetCall, GatherEvent.sleepCall,
          GatherEvent.rpcCall], Except.ok bytes)) ∧
    (∀ (sha : List Nat → List Nat) (provider : Nat → RpcResult) (uid : Nat),
      uid ≠ AID_SYSTEM → uid ≠ AID_ROOT →
      (provider 0).isOk = false → (provider 1).isOk = false → (provider 2).isOk = false →
      (gather_attestation_application_id sha provider uid).1.count GatherEvent.rpcCall = 3 ∧
      (gather_attestation_application_id sha provider uid).2 =
        Except.error AAIDStatus.GetAttestationApplicationIdFailed ∧
      (gather_attestation_application_id sha provider uid).1.count GatherEvent.resetCall =
        ((if (provider 0).isTransactionFailed then 1 else 0) +
         (if (provider 1).isTransactionFailed then 1 else 0) +
         (if (provider 2).isTransactionFailed then 1 else 0))) := by
  constructor
  · intro sha provider uid ka bytes h1 h2 hp0 hp1 hb
    rw [gather_not_privileged sha provider uid h1 h2]
    have hfail0 : (provider 0).isOk = false := by rw [hp0]; rfl
    have hok1 : (provider 1).isOk = true := by rw [hp1]; rfl
    have e1 : runAttempts provider 1 2 = ([GatherEvent.rpcCall], provider 1) :=
      runAttempts_ok provider 1 1 hok1
    have e0 : runAttempts provider 0 3 =
        ((GatherEvent.rpcCall ::
            ((if (provider 0).isTransactionFailed then [GatherEvent.resetCall] else []) ++
              [GatherEvent.sleepCall])) ++ (runAttempts provider 1 2).1,
         (runAttempts provider 1 2).2) :=
      runAttempts_fail_step provider 0 2 hfail0 (by omega)
    have hrun : runAttempts provider 0 kMaxAttempts =
        ([GatherEvent.rpcCall, GatherEvent.resetCall, GatherEvent.sleepCall,
          GatherEvent.rpcCall], RpcResult.Ok ka) := by
      show runAttempts provider 0 3 = _
      rw [e0, e1, hp0, hp1]
      simp [RpcResult.isTransactionFailed]
    rw [hrun]
    show ([GatherEvent.rpcCall, GatherEvent.resetCall, GatherEvent.sleepCall,
          GatherEvent.rpcCall], build_attestation_application_id sha ka) = _
    rw [hb]
  · intro sha provider uid h1 h2 hf0 hf1 hf2
    rw [gather_not_privileged sha provider uid h1 h2]
    have e2 : runAttempts provider 2 1 =
        (GatherEvent.rpcCall ::
          ((if (provider 2).isTransactionFailed then [GatherEvent.resetCall] else []) ++
            [GatherEvent.sleepCall]), provider 2) :=
      runAttempts_fail_last provider 2 hf2
    have e1 : runAttempts provider 1 2 =
        ((GatherEvent.rpcCall ::
            ((if (provider 1).isTransactionFailed then [GatherEvent.resetCall] else []) ++
              [GatherEvent.sleepCall])) ++ (runAttempts provider 2 1).1,
         (runAttempts provider 2 1).2) :=
      runAttempts_fail_step provider 1 1 hf1 (by omega)
    have e0 : runAttempts provider 0 3 =
        ((GatherEvent.rpcCall ::
            ((if (provider 0).isTransactionFailed then [GatherEvent.resetCall] else []) ++
              [GatherEvent.sleepCall])) ++ (runAttempts provider 1 2).1,
         (runAttempts provider 1 2).2) :=
      runAttempts_fail_step provider 0 2 hf0 (by omega)
    have hkm : kMaxAttempts = 3 := rfl
    rw [hkm, e0, e1, e2]
    cases hc2 : provider 2 with
    | Ok ka => rw [hc2] at hf2; simp [RpcResult.isOk] at hf2
    | ServiceSpecific =>
      refine ⟨?_, rfl, ?_⟩
      · cases hb0 : (provider 0).isTransactionFailed <;>
          cases hb1 : (provider 1).isTransactionFailed <;>
          simp [RpcResult.isTransactionFailed, List.count_append, List.count_cons] <;>
          decide
      · cases hb0 : (provider 0).isTransactionFailed <;>
          cases hb1 : (provider 1).isTransactionFailed <;>
          simp [RpcResult.isTransactionFailed, List.count_append, List.count_cons] <;>
          decide
    | TransactionFailed =>
      refine ⟨?_, rfl, ?_⟩
      · cases hb0 : (provider 0).isTransactionFailed <;>
          cases hb1 : (provider 1).isTransactionFailed <;>
          simp [RpcResult.isTransactionFailed, List.count_append, List.count_cons] <;>
          decide
      · cases hb0 : (provider 0).isTransactionFailed <;>
          cases hb1 : (provider 1).isTransactionFailed <;>
          simp [RpcResult.isTransactionFailed, List.count_append, List.count_cons] <;>
          decide
    | OtherError =>
      refine ⟨?_, rfl, ?_⟩
      · cases hb0 : (provider 0).isTransactionFailed <;>
          cases hb1 : (provider 1).isTransactionFailed <;>
          simp [RpcResult.isTransactionFailed, List.count_append, List.count_cons] <;>
          decide
      · cases hb0 : (provider 0).isTransactionFailed <;>
          cases hb1 : (provider 1).isTransactionFailed <;>
          simp [RpcResult.isTransactionFailed, List.count_append, List.count_cons] <;>
          decide

/-- Witness for C6 at concrete providers: TransactionFailed-then-Ok
succeeds with one reset between the RPCs; three ServiceSpecific
failures give three RPCs, the lookup error, and zero resets. -/
theorem C6_retry_and_reset_policy_witness :
    gather_attestation_application_id shaZero c6ProviderRetry 42 =
      ([GatherEvent.rpcCall, GatherEvent.resetCall, GatherEvent.sleepCall,
        GatherEvent.rpcCall],
       Except.ok (i2d_KM_ATTESTATION_APPLICATION_ID
         { package_infos := [toKMInfo { packageName := some kAttestationSystemPackageName,
                                        versionCode := 1, signatures := [] }],
           signature_digests := [] })) ∧
    (gather_attestation_application_id shaZero c6ProviderFail 42).1.count
      GatherEvent.rpcCall = 3 ∧
    (gather_attestation_application_id shaZero c6ProviderFail 42).2 =
      Except.error AAIDStatus.GetAttestationApplicationIdFailed ∧
    (gather_attestation_application_id shaZero c6ProviderFail 42).1.count
      GatherEvent.resetCall = 0 := by
  have h := C6_retry_and_reset_policy.2 shaZero c6ProviderFail 42
    (by decide) (by decide) rfl rfl rfl
  exact ⟨C6_retry_and_reset_policy.1 shaZero c6ProviderRetry 42 systemKeyAttestationId
    (i2d_KM_ATTESTATION_APPLICATION_ID
      { package_infos := [toKMInfo { packageName := some kAttestationSystemPackageName,
                                     versionCode := 1, signatures := [] }],
        signature_digests := [] })
    (by decide) (by decide) rfl rfl rfl, h.1, h.2.1, h.2.2⟩

/-- C7 counterexample: with three ServiceSpecific failures the trace
contains three sleeps, one after each failing attempt including the
final one, so the gatherer does not perform only two inter-attempt
sleeps. -/
theorem C7_counterexample_three_sleeps :
    (gather_attestation_application_id shaZero c7Provider 77).1 =
      [GatherEvent.rpcCall, GatherEvent.sleepCall, GatherEvent.rpcCall, GatherEvent.sleepCall,
       GatherEvent.rpcCall, GatherEvent.sleepCall] ∧
    (gather_attestation_application_id shaZero c7Provider 77).1.count
      GatherEvent.sleepCall ≠ 2 :=
  ⟨rfl, by decide⟩

/-- C7 amended: with three ServiceSpecific failures the gatherer
performs exactly three sleeps, one after each failing attempt,
including one after the final failing attempt, and fails with the
lookup error. -/
theorem C7_amended_three_sleeps (sha : List Nat → List Nat) (provider : Nat → RpcResult)
    (uid : Nat) (h1 : uid ≠ AID_SYSTEM) (h2 : uid ≠ AID_ROOT)
    (hp0 : provider 0 = RpcResult.ServiceSpecific)
    (hp1 : provider 1 = RpcResult.ServiceSpecific)
    (hp2 : provider 2 = RpcResult.ServiceSpecific) :
    (gather_attestation_application_id sha provider uid).1 =
      [GatherEvent.rpcCall, GatherEvent.sleepCall, GatherEvent.rpcCall, GatherEvent.sleepCall,
       GatherEvent.rpcCall, GatherEvent.sleepCall] ∧
    (gather_attestation_application_id sha provider uid).2 =
      Except.error AAIDStatus.GetAttestationApplicationIdFailed := by
  rw [gather_not_privileged sha provider uid h1 h2]
  have hf0 : (provider 0).isOk = false := by rw [hp0]; rfl
  have hf1 : (provider 1).isOk = false := by rw [hp1]; rfl
  have hf2 : (provider 2).isOk = false := by rw [hp2]; rfl
  have e2 : runAttempts provider 2 1 =
      (GatherEvent.rpcCall ::
        ((if (provider 2).isTransactionFailed then [GatherEvent.resetCall] else []) ++
          [GatherEvent.sleepCall]), provider 2) :=
    runAttempts_fail_last provider 2 hf2
  have e1 : runAttempts provider 1 2 =
      ((GatherEvent.rpcCall ::
          ((if (provider 1).isTransactionFailed then [GatherEvent.resetCall] else []) ++
            [GatherEvent.sleepCall])) ++ (runAttempts provider 2 1).1,
       (runAttempts provider 2 1).2) :=
    runAttempts_fail_step provider 1 1 hf1 (by omega)
  have e0 : runAttempts provider 0 3 =
      ((GatherEvent.rpcCall ::
          ((if (provider 0).isTransactionFailed then [GatherEvent.resetCall] else []) ++
            [GatherEvent.sleepCall])) ++ (runAttempts provider 1 2).1,
       (runAttempts provider 1 2).2) :=
    runAttempts_fail_step provider 0 2 hf0 (by omega)
  have hrun : runAttempts provider 0 kMaxAttempts =
      ([GatherEvent.rpcCall, GatherEvent.sleepCall, GatherEvent.rpcCall,
        GatherEvent.sleepCall, GatherEvent.rpcCall, GatherEvent.sleepCall],
       RpcResult.ServiceSpecific) := by
    show runAttempts provider 0 3 = _
    rw [e0, e1, e2, hp0, hp1, hp2]
    simp [RpcResult.isTransactionFailed]
  rw [hrun]
  exact ⟨rfl, rfl⟩

/-- Witness for the amended C7 at a concrete provider. -/
theorem C7_amended_three_sleeps_witness :
    (gather_attestation_application_id shaZero c7Provider 99).1 =
      [GatherEvent.rpcCall, GatherEvent.sleepCall, GatherEvent.rpcCall, GatherEvent.sleepCall,
       GatherEvent.rpcCall, GatherEvent.sleepCall] ∧
    (gather_attestation_application_id shaZero c7Provider 99).2 =
      Except.error AAIDStatus.GetAttestationApplicationIdFailed :=
  C7_amended_three_sleeps shaZero c7Provider 99 (by decide) (by decide) rfl rfl rfl

/-- C8: the encoder is a pure function of its input, hence
deterministic: re-evaluation gives bytewise-identical output, and equal
inputs give bytewise-identical output. -/
theorem C8_encoder_deterministic :
    (∀ (sha : List Nat → List Nat) (x : KeyAttestationApplicationId),
      build_attestation_application_id sha x = build_attestation_application_id sha x) ∧
    (∀ (sha : List Nat → List Nat) (x y : KeyAttestationApplicationId),
      x = y → build_attestation_application_id sha x = build_attestation_application_id sha y) :=
  ⟨fun _ _ => rfl, fun _ _ _ h => by rw [h]⟩

/-- Witness for C8 at a concrete input. -/
theorem C8_encoder_deterministic_witness :
    build_attestation_application_id shaZero systemKeyAttestationId =
      build_attestation_application_id shaZero systemKeyAttestationId :=
  C8_encoder_deterministic.2 shaZero systemKeyAttestationId systemKeyAttestationId rfl

/-- C9: whenever the package loop truncated (fewer encoded packages
than input packages), the encoded digest set is empty: the retained
over-budget estimate makes the first digest check fail. -/
theorem C9_truncation_empties_digests (sha : List Nat → List Nat)
    (ka : KeyAttestationApplicationId) (st : KM_ATTESTATION_APPLICATION_ID)
    (hok : buildStructure sha ka = Except.ok st)
    (htr : st.package_infos.length < ka.packageInfos.length) :
    st.signature_digests = [] := by
  obtain ⟨pkgs⟩ := ka
  cases pkgs with
  | nil => simp [buildStructure] at hok
  | cons first rest =>
    cases hrec : pkgLoop (first :: rest) AAID_GENERAL_OVERHEAD with
    | error e => simp [buildStructure, hrec] at hok
    | ok r =>
      obtain ⟨infos, est⟩ := r
      have hst : st =
          { package_infos := infos,
            signature_digests :=
              (sigLoop ((first.signatures).map (signature2SHA256 sha)) est).1 } := by
        simp [buildStructure, hrec] at hok
        exact hok.symm
      have hlt : infos.length < (first :: rest).length := by
        rw [hst] at htr
        simpa using htr
      have hover := pkgLoop_truncated_over (first :: rest) AAID_GENERAL_OVERHEAD infos est hrec hlt
      rw [hst]
      exact sigLoop_over _ _ hover

set_option maxRecDepth 100000 in
/-- Witness for C9: a two-package input whose second package overflows
the cap; only one package is encoded and the digest of the first
package's signature is dropped. -/
theorem C9_truncation_empties_digests_witness :
    buildStructure shaZero c9TruncatingInput =
      Except.ok { package_infos := [toKMInfo c9Pkg1], signature_digests := [] } ∧
    ({ package_infos := [toKMInfo c9Pkg1], signature_digests := [] } :
        KM_ATTESTATION_APPLICATION_ID).package_infos.length <
      c9TruncatingInput.packageInfos.length ∧
    ({ package_infos := [toKMInfo c9Pkg1], signature_digests := [] } :
        KM_ATTESTATION_APPLICATION_ID).signature_digests = [] :=
  ⟨rfl, by decide,
   C9_truncation_empties_digests shaZero c9TruncatingInput
     { package_infos := [toKMInfo c9Pkg1], signature_digests := [] } rfl (by decide)⟩

/-- C10: a non-privileged uid whose lookup succeeds with an empty
package list fails in the encoding step with `BAD_VALUE`, not with the
lookup error code. -/
theorem C10_empty_lookup_gives_bad_value (sha : List Nat → List Nat)
    (provider : Nat → RpcResult) (uid : Nat)
    (h1 : uid ≠ AID_SYSTEM) (h2 : uid ≠ AID_ROOT)
    (hp0 : provider 0 = RpcResult.Ok { packageInfos := [] }) :
    (gather_attestation_application_id sha provider uid).2 =
      Except.error AAIDStatus.BAD_VALUE := by
  rw [gather_not_privileged sha provider uid h1 h2]
  have hok0 : (provider 0).isOk = true := by rw [hp0]; rfl
  have hrun : runAttempts provider 0 kMaxAttempts =
      ([GatherEvent.rpcCall], RpcResult.Ok { packageInfos := [] }) := by
    show runAttempts provider 0 3 = _
    rw [runAttempts_ok provider 0 2 hok0, hp0]
  rw [hrun]
  rfl

/-- Witness for C10 at a concrete provider. -/
theorem C10_empty_lookup_gives_bad_value_witness :
    (gather_attestation_application_id shaZero c10Provider 5).2 =
      Except.error AAIDStatus.BAD_VALUE :=
  C10_empty_lookup_gives_bad_value shaZero c10Provider 5 (by decide) (by decide) rfl

end KeystoreAttestationId
